import Mathlib

/-!
Verification of the phishing-training user simulation (`user.py`, `main.py`).

Randomness is made explicit: each call of Python's `random.random()` is a
rational draw in `[0, 1)` passed as an argument, and `random.choice` is an
index draw.  Python float probabilities (`0.1`, `0.5`) and float division are
embedded as exact rationals.
-/

/-- Modelled from the spec: the Outcome Vocabulary of `simulation.py` (a file
not present in the sources), "a closed, ordered set {SUCCESS, MISS, FAIL}";
the order matches the positional comments in `user.py`
(`SIMULATION_OUTCOMES[0]  # SUCCESS`, `[1]  # MISS`, `[2]  # FAIL`). -/
def SIMULATION_OUTCOMES : List String := ["SUCCESS", "MISS", "FAIL"]

/-- Modelled from the spec: the `SimulationResult` value object of
`simulation.py` (a file not present in the sources): fields
`(timestamp, user_id, type, name, outcome)`, immutable once created. -/
structure SimulationResult where
  timestamp : String
  user_id : String
  type : String
  name : String
  outcome : String
deriving Repr, DecidableEq

/-- The state of a `User` object from `user.py`: `id`, `type` and `name` are
set in `__init__` and `history` starts empty and is mutated only by
`complete_simulation`. -/
structure User where
  id : String
  type : String
  name : String
  history : List SimulationResult
deriving Repr, DecidableEq

/-- Embeds `User.non_missed_simulations_completed`: a loop over `self.history`
incrementing `count` when `i.outcome != 'MISS'`. -/
def User.non_missed_simulations_completed (u : User) : Nat :=
  u.history.foldl (fun count i => if i.outcome ≠ "MISS" then count + 1 else count) 0

/-- Embeds `User.simulations_completed`: `len(self.history)`. -/
def User.simulations_completed (u : User) : Nat :=
  u.history.length

/-- The error raised by the `assert` in `User.complete_simulation` when the
variant's outcome is not in `SIMULATION_OUTCOMES`. -/
inductive SimError where
  | INVALID_OUTCOME
deriving Repr, DecidableEq

/-- Embeds `User.complete_simulation`: computes `outcome = self._get_simulation_outcome()`
(passed here as the applied policy `policy : User → String`), asserts it is in
`SIMULATION_OUTCOMES` (raising before anything is recorded, so the state is
returned unchanged), otherwise appends a `SimulationResult` built from the
formatted timestamp, the user's `id`, `type`, `name` and the outcome. -/
def User.complete_simulation (policy : User → String) (u : User) (timestamp : String) :
    Option SimError × User :=
  let outcome := policy u
  if outcome ∈ SIMULATION_OUTCOMES then
    (none,
      { u with
        history := u.history ++
          [{ timestamp := timestamp
             user_id := u.id
             type := u.type
             name := u.name
             outcome := outcome }] })
  else
    (some SimError.INVALID_OUTCOME, u)

/-- Embeds `DummyUser._get_simulation_outcome`: `random.choice(SIMULATION_OUTCOMES)`,
i.e. the element of the vocabulary at a uniformly drawn index. -/
def DummyUser.get_simulation_outcome (i : Fin SIMULATION_OUTCOMES.length) : String :=
  SIMULATION_OUTCOMES.get i

/-- The inner `success_chance` of `QuickLearner._get_simulation_outcome` and
`BusyQuickLearner._get_simulation_outcome`:
`(non_missed + 1) / (non_missed + 10)` as an exact rational. -/
def QuickLearner.success_chance (u : User) : ℚ :=
  (u.non_missed_simulations_completed + 1) / (u.non_missed_simulations_completed + 10)

/-- The inner `success_chance` of `SlowLearner._get_simulation_outcome` and
`BusySlowLearner._get_simulation_outcome`:
`(non_missed + 3) / (non_missed + 30)` as an exact rational. -/
def SlowLearner.success_chance (u : User) : ℚ :=
  (u.non_missed_simulations_completed + 3) / (u.non_missed_simulations_completed + 30)

/-- Embeds `QuickLearner._get_simulation_outcome`, generalized over the vocabulary
list the positional accesses `SIMULATION_OUTCOMES[1]`, `[0]`, `[2]` read from;
`d1`, `d2` are the two `random.random()` draws. -/
def QuickLearner.get_simulation_outcomeV (vocab : List String) (u : User) (d1 d2 : ℚ) :
    String :=
  if d1 < 1/10 then vocab.getD 1 ""
  else if d2 < QuickLearner.success_chance u then vocab.getD 0 ""
  else vocab.getD 2 ""

/-- Embeds `QuickLearner._get_simulation_outcome` with the actual vocabulary. -/
def QuickLearner.get_simulation_outcome : User → ℚ → ℚ → String :=
  QuickLearner.get_simulation_outcomeV SIMULATION_OUTCOMES

/-- Embeds `SlowLearner._get_simulation_outcome`, generalized over the vocabulary. -/
def SlowLearner.get_simulation_outcomeV (vocab : List String) (u : User) (d1 d2 : ℚ) :
    String :=
  if d1 < 1/10 then vocab.getD 1 ""
  else if d2 < SlowLearner.success_chance u then vocab.getD 0 ""
  else vocab.getD 2 ""

/-- Embeds `SlowLearner._get_simulation_outcome` with the actual vocabulary. -/
def SlowLearner.get_simulation_outcome : User → ℚ → ℚ → String :=
  SlowLearner.get_simulation_outcomeV SIMULATION_OUTCOMES

/-- Embeds `BusyQuickLearner._get_simulation_outcome`, generalized over the
vocabulary; identical to `QuickLearner` except the `0.5` miss threshold. -/
def BusyQuickLearner.get_simulation_outcomeV (vocab : List String) (u : User) (d1 d2 : ℚ) :
    String :=
  if d1 < 1/2 then vocab.getD 1 ""
  else if d2 < QuickLearner.success_chance u then vocab.getD 0 ""
  else vocab.getD 2 ""

/-- Embeds `BusyQuickLearner._get_simulation_outcome` with the actual vocabulary. -/
def BusyQuickLearner.get_simulation_outcome : User → ℚ → ℚ → String :=
  BusyQuickLearner.get_simulation_outcomeV SIMULATION_OUTCOMES

/-- Embeds `BusySlowLearner._get_simulation_outcome`, generalized over the
vocabulary; identical to `SlowLearner` except the `0.5` miss threshold. -/
def BusySlowLearner.get_simulation_outcomeV (vocab : List String) (u : User) (d1 d2 : ℚ) :
    String :=
  if d1 < 1/2 then vocab.getD 1 ""
  else if d2 < SlowLearner.success_chance u then vocab.getD 0 ""
  else vocab.getD 2 ""

/-- Embeds `BusySlowLearner._get_simulation_outcome` with the actual vocabulary. -/
def BusySlowLearner.get_simulation_outcome : User → ℚ → ℚ → String :=
  BusySlowLearner.get_simulation_outcomeV SIMULATION_OUTCOMES

/-- A sequence of `complete_simulation` calls: each step supplies the
timestamp and the variant policy (with its draws already applied); a failing
call aborts the run, propagating the error with the state at that point. -/
def runSimulations (u : User) : List (String × (User → String)) → Option SimError × User
  | [] => (none, u)
  | (ts, p) :: rest =>
    match User.complete_simulation p u ts with
    | (none, u') => runSimulations u' rest
    | (some e, u') => (some e, u')

/-- The spec's description of a variant policy, in the spec's words: a
two-stage draw — MISS when the first draw falls below the miss probability,
otherwise SUCCESS when the second draw falls below the success chance at the
current non-missed-completed count, else FAIL. -/
def specTwoStageDraw (missProb : ℚ) (chance : Nat → ℚ) (n : Nat) (d1 d2 : ℚ) : String :=
  if d1 < missProb then "MISS"
  else if d2 < chance n then "SUCCESS"
  else "FAIL"

/-- The quick success-chance curve as a function of the count. -/
def quickChance (n : Nat) : ℚ := (n + 1) / (n + 10)

/-- The slow success-chance curve as a function of the count. -/
def slowChance (n : Nat) : ℚ := (n + 3) / (n + 30)

section Helpers

/-- The counting loop of `non_missed_simulations_completed`, run from any
accumulator, counts the non-MISS entries. -/
theorem foldl_count_eq (c : Nat) (l : List SimulationResult) :
    l.foldl (fun count i => if i.outcome ≠ "MISS" then count + 1 else count) c
      = c + (l.filter (fun i => i.outcome ≠ "MISS")).length := by
  induction l generalizing c with
  | nil => simp
  | cons a l ih =>
    rw [List.foldl_cons, ih, List.filter_cons]
    by_cases h : a.outcome = "MISS" <;> simp [h]
    omega

theorem non_missed_eq_filter_length (u : User) :
    u.non_missed_simulations_completed
      = (u.history.filter (fun i => i.outcome ≠ "MISS")).length := by
  simpa [User.non_missed_simulations_completed] using foldl_count_eq 0 u.history

theorem quick_outcome_eq_spec (u : User) (d1 d2 : ℚ) :
    QuickLearner.get_simulation_outcome u d1 d2
      = specTwoStageDraw (1/10) quickChance u.non_missed_simulations_completed d1 d2 := by
  simp only [QuickLearner.get_simulation_outcome, QuickLearner.get_simulation_outcomeV,
    specTwoStageDraw, QuickLearner.success_chance, quickChance, SIMULATION_OUTCOMES,
    List.getD]
  rfl

theorem slow_outcome_eq_spec (u : User) (d1 d2 : ℚ) :
    SlowLearner.get_simulation_outcome u d1 d2
      = specTwoStageDraw (1/10) slowChance u.non_missed_simulations_completed d1 d2 := by
  simp only [SlowLearner.get_simulation_outcome, SlowLearner.get_simulation_outcomeV,
    specTwoStageDraw, SlowLearner.success_chance, slowChance, SIMULATION_OUTCOMES,
    List.getD]
  rfl

theorem busy_quick_outcome_eq_spec (u : User) (d1 d2 : ℚ) :
    BusyQuickLearner.get_simulation_outcome u d1 d2
      = specTwoStageDraw (1/2) quickChance u.non_missed_simulations_completed d1 d2 := by
  simp only [BusyQuickLearner.get_simulation_outcome, BusyQuickLearner.get_simulation_outcomeV,
    specTwoStageDraw, QuickLearner.success_chance, quickChance, SIMULATION_OUTCOMES,
    List.getD]
  rfl

theorem busy_slow_outcome_eq_spec (u : User) (d1 d2 : ℚ) :
    BusySlowLearner.get_simulation_outcome u d1 d2
      = specTwoStageDraw (1/2) slowChance u.non_missed_simulations_completed d1 d2 := by
  simp only [BusySlowLearner.get_simulation_outcome, BusySlowLearner.get_simulation_outcomeV,
    specTwoStageDraw, SlowLearner.success_chance, slowChance, SIMULATION_OUTCOMES,
    List.getD]
  rfl

theorem complete_simulation_of_mem (policy : User → String) (u : User) (ts : String)
    (h : policy u ∈ SIMULATION_OUTCOMES) :
    User.complete_simulation policy u ts =
      (none,
        { u with
          history := u.history ++
            [{ timestamp := ts, user_id := u.id, type := u.type, name := u.name,
               outcome := policy u }] }) := by
  simp [User.complete_simulation, h]

theorem complete_simulation_of_not_mem (policy : User → String) (u : User) (ts : String)
    (h : policy u ∉ SIMULATION_OUTCOMES) :
    User.complete_simulation policy u ts = (some SimError.INVALID_OUTCOME, u) := by
  simp [User.complete_simulation, h]

theorem spec_draw_mem (missProb : ℚ) (chance : Nat → ℚ) (n : Nat) (d1 d2 : ℚ) :
    specTwoStageDraw missProb chance n d1 d2 ∈ SIMULATION_OUTCOMES := by
  unfold specTwoStageDraw SIMULATION_OUTCOMES
  split_ifs <;> simp

end Helpers

/-- C1: for every learner variant and every history state, the produced
outcome is the spec's two-stage draw: MISS when the first draw is below the
variant's miss probability (1/10 for Quick/Slow, 1/2 for the Busy variants),
otherwise SUCCESS when the second draw is below the variant's success-chance
curve at the current non-missed-completed count, else FAIL; and
`complete_simulation` records exactly that outcome, evaluated at the
pre-append count. -/
theorem c1_two_stage_draw (u : User) (d1 d2 : ℚ) (ts : String) :
    QuickLearner.get_simulation_outcome u d1 d2
        = specTwoStageDraw (1/10) quickChance u.non_missed_simulations_completed d1 d2
  ∧ SlowLearner.get_simulation_outcome u d1 d2
        = specTwoStageDraw (1/10) slowChance u.non_missed_simulations_completed d1 d2
  ∧ BusyQuickLearner.get_simulation_outcome u d1 d2
        = specTwoStageDraw (1/2) quickChance u.non_missed_simulations_completed d1 d2
  ∧ BusySlowLearner.get_simulation_outcome u d1 d2
        = specTwoStageDraw (1/2) slowChance u.non_missed_simulations_completed d1 d2
  ∧ (User.complete_simulation (fun v => QuickLearner.get_simulation_outcome v d1 d2) u ts).2.history
        = u.history ++
          [{ timestamp := ts, user_id := u.id, type := u.type, name := u.name,
             outcome := specTwoStageDraw (1/10) quickChance
               u.non_missed_simulations_completed d1 d2 }] := by
  refine ⟨quick_outcome_eq_spec u d1 d2, slow_outcome_eq_spec u d1 d2,
    busy_quick_outcome_eq_spec u d1 d2, busy_slow_outcome_eq_spec u d1 d2, ?_⟩
  have hmem : QuickLearner.get_simulation_outcome u d1 d2 ∈ SIMULATION_OUTCOMES := by
    rw [quick_outcome_eq_spec]; exact spec_draw_mem _ _ _ _ _
  rw [complete_simulation_of_mem _ _ _ hmem]
  simp [quick_outcome_eq_spec]

/-- C5: `non_missed_simulations_completed` counts exactly the history entries
whose outcome is not MISS, `simulations_completed` is exactly the history
length, and the former never exceeds the latter. -/
theorem c5_counts (u : User) :
    u.non_missed_simulations_completed
        = (u.history.filter (fun i => i.outcome ≠ "MISS")).length
  ∧ u.simulations_completed = u.history.length
  ∧ u.non_missed_simulations_completed ≤ u.simulations_completed := by
  refine ⟨non_missed_eq_filter_length u, rfl, ?_⟩
  rw [non_missed_eq_filter_length]
  exact le_trans (List.length_filter_le _ _) (le_of_eq rfl)

section RunHelpers

theorem runSimulations_ok (steps : List (String × (User → String))) (u : User)
    (h : (runSimulations u steps).1 = none) :
    ∃ t : List SimulationResult,
      (runSimulations u steps).2.history = u.history ++ t ∧ t.length = steps.length := by
  induction steps generalizing u with
  | nil => exact ⟨[], by simp [runSimulations], rfl⟩
  | cons s rest ih =>
    obtain ⟨ts, p⟩ := s
    by_cases hm : p u ∈ SIMULATION_OUTCOMES
    · rw [runSimulations, complete_simulation_of_mem _ _ _ hm] at h ⊢
      obtain ⟨t, ht, hlen⟩ := ih _ h
      refine ⟨{ timestamp := ts, user_id := u.id, type := u.type, name := u.name,
                outcome := p u } :: t, ?_, by simp [hlen]⟩
      rw [ht]; simp
    · rw [runSimulations, complete_simulation_of_not_mem _ _ _ hm] at h
      simp at h

theorem runSimulations_fields (steps : List (String × (User → String))) (u : User) :
    (runSimulations u steps).2.id = u.id
  ∧ (runSimulations u steps).2.type = u.type
  ∧ (runSimulations u steps).2.name = u.name := by
  induction steps generalizing u with
  | nil => exact ⟨rfl, rfl, rfl⟩
  | cons s rest ih =>
    obtain ⟨ts, p⟩ := s
    by_cases hm : p u ∈ SIMULATION_OUTCOMES
    · rw [runSimulations, complete_simulation_of_mem _ _ _ hm]
      exact ih _
    · rw [runSimulations, complete_simulation_of_not_mem _ _ _ hm]
      exact ⟨rfl, rfl, rfl⟩

theorem quick_outcome_mem (u : User) (d1 d2 : ℚ) :
    QuickLearner.get_simulation_outcome u d1 d2 ∈ SIMULATION_OUTCOMES := by
  rw [quick_outcome_eq_spec]; exact spec_draw_mem _ _ _ _ _

theorem slow_outcome_mem (u : User) (d1 d2 : ℚ) :
    SlowLearner.get_simulation_outcome u d1 d2 ∈ SIMULATION_OUTCOMES := by
  rw [slow_outcome_eq_spec]; exact spec_draw_mem _ _ _ _ _

theorem busy_quick_outcome_mem (u : User) (d1 d2 : ℚ) :
    BusyQuickLearner.get_simulation_outcome u d1 d2 ∈ SIMULATION_OUTCOMES := by
  rw [busy_quick_outcome_eq_spec]; exact spec_draw_mem _ _ _ _ _

theorem busy_slow_outcome_mem (u : User) (d1 d2 : ℚ) :
    BusySlowLearner.get_simulation_outcome u d1 d2 ∈ SIMULATION_OUTCOMES := by
  rw [busy_slow_outcome_eq_spec]; exact spec_draw_mem _ _ _ _ _

theorem dummy_outcome_mem (i : Fin SIMULATION_OUTCOMES.length) :
    DummyUser.get_simulation_outcome i ∈ SIMULATION_OUTCOMES :=
  List.get_mem SIMULATION_OUTCOMES i.1 i.2

end RunHelpers

/-- C3: `complete_simulation` fails with INVALID_OUTCOME exactly when the
policy's outcome is outside the Outcome Vocabulary; on failure the user state
is returned unchanged (nothing recorded); on success the produced outcome is
wrapped in a `SimulationResult` and appended to the history. -/
theorem c3_invalid_outcome (policy : User → String) (u : User) (ts : String) :
    ((User.complete_simulation policy u ts).1 = some SimError.INVALID_OUTCOME
        ↔ policy u ∉ SIMULATION_OUTCOMES)
  ∧ (policy u ∉ SIMULATION_OUTCOMES → (User.complete_simulation policy u ts).2 = u)
  ∧ (policy u ∈ SIMULATION_OUTCOMES →
      (User.complete_simulation policy u ts).2 =
        { u with history := u.history ++
            [{ timestamp := ts, user_id := u.id, type := u.type, name := u.name,
               outcome := policy u }] }) := by
  by_cases hm : policy u ∈ SIMULATION_OUTCOMES
  · rw [complete_simulation_of_mem _ _ _ hm]
    exact ⟨by simp [hm], fun hn => absurd hm hn, fun _ => rfl⟩
  · rw [complete_simulation_of_not_mem _ _ _ hm]
    exact ⟨by simp [hm], fun _ => rfl, fun h => absurd h hm⟩

/-- C3 witness: a policy returning the invalid outcome "BOGUS" aborts the
call and leaves the user unchanged. -/
theorem c3_invalid_outcome_witness :
    (User.complete_simulation (fun _ => "BOGUS")
        { id := "i", type := "t", name := "n", history := [] } "2022-01-01 00:00:00").2
      = { id := "i", type := "t", name := "n", history := [] } :=
  (c3_invalid_outcome (fun _ => "BOGUS")
    { id := "i", type := "t", name := "n", history := [] } "2022-01-01 00:00:00").2.1
    (by decide)

/-- C4: a run of N successful `complete_simulation` calls appends exactly N
results: the history length grows by exactly N (so a fresh user ends with N
entries), the old history stays as an unchanged prefix (nothing removed or
reordered), and `id`, `type`, `name` are unchanged. -/
theorem c4_append_only (u : User) (steps : List (String × (User → String)))
    (h : (runSimulations u steps).1 = none) :
    (runSimulations u steps).2.history.length = u.history.length + steps.length
  ∧ (runSimulations u steps).2.history.take u.history.length = u.history
  ∧ (runSimulations u steps).2.id = u.id
  ∧ (runSimulations u steps).2.type = u.type
  ∧ (runSimulations u steps).2.name = u.name := by
  obtain ⟨t, ht, hlen⟩ := runSimulations_ok steps u h
  obtain ⟨hid, hty, hnm⟩ := runSimulations_fields steps u
  refine ⟨by rw [ht]; simp [hlen], ?_, hid, hty, hnm⟩
  rw [ht, List.take_left]

/-- C4 witness: two successful calls on a fresh user leave a two-element
history. -/
theorem c4_append_only_witness :
    (runSimulations { id := "id0", type := "Dummy", name := "Ann", history := [] }
        [("2022-01-01 00:00:00", fun _ => "SUCCESS"),
         ("2022-01-02 00:00:00", fun _ => "MISS")]).2.history.length
      = ({ id := "id0", type := "Dummy", name := "Ann",
           history := [] } : User).history.length + 2 :=
  (c4_append_only { id := "id0", type := "Dummy", name := "Ann", history := [] }
    [("2022-01-01 00:00:00", fun _ => "SUCCESS"),
     ("2022-01-02 00:00:00", fun _ => "MISS")] (by decide)).1

/-- C7: each of the five provided variants is a total function of its history
state and draws whose outcome is always a member of the Outcome Vocabulary, so
`complete_simulation` never reaches its INVALID_OUTCOME assertion with them. -/
theorem c7_variants_total_valid (u : User) (d1 d2 : ℚ)
    (i : Fin SIMULATION_OUTCOMES.length) (ts : String) :
    DummyUser.get_simulation_outcome i ∈ SIMULATION_OUTCOMES
  ∧ QuickLearner.get_simulation_outcome u d1 d2 ∈ SIMULATION_OUTCOMES
  ∧ SlowLearner.get_simulation_outcome u d1 d2 ∈ SIMULATION_OUTCOMES
  ∧ BusyQuickLearner.get_simulation_outcome u d1 d2 ∈ SIMULATION_OUTCOMES
  ∧ BusySlowLearner.get_simulation_outcome u d1 d2 ∈ SIMULATION_OUTCOMES
  ∧ (User.complete_simulation (fun _ => DummyUser.get_simulation_outcome i) u ts).1 = none
  ∧ (User.complete_simulation (fun v => QuickLearner.get_simulation_outcome v d1 d2) u ts).1 = none
  ∧ (User.complete_simulation (fun v => SlowLearner.get_simulation_outcome v d1 d2) u ts).1 = none
  ∧ (User.complete_simulation (fun v => BusyQuickLearner.get_simulation_outcome v d1 d2) u ts).1 = none
  ∧ (User.complete_simulation (fun v => BusySlowLearner.get_simulation_outcome v d1 d2) u ts).1 = none := by
  refine ⟨dummy_outcome_mem i, quick_outcome_mem u d1 d2, slow_outcome_mem u d1 d2,
    busy_quick_outcome_mem u d1 d2, busy_slow_outcome_mem u d1 d2, ?_, ?_, ?_, ?_, ?_⟩
  · rw [complete_simulation_of_mem _ _ _ (dummy_outcome_mem i)]
  · rw [complete_simulation_of_mem _ _ _ (quick_outcome_mem u d1 d2)]
  · rw [complete_simulation_of_mem _ _ _ (slow_outcome_mem u d1 d2)]
  · rw [complete_simulation_of_mem _ _ _ (busy_quick_outcome_mem u d1 d2)]
  · rw [complete_simulation_of_mem _ _ _ (busy_slow_outcome_mem u d1 d2)]

theorem spec_draw_eq_miss_iff (m : ℚ) (c : Nat → ℚ) (n : Nat) (d1 d2 : ℚ) :
    specTwoStageDraw m c n d1 d2 = "MISS" ↔ d1 < m := by
  unfold specTwoStageDraw
  split_ifs with h1 h2 <;> simp [h1]

/-- C6: a Busy variant differs from its non-Busy counterpart only in the miss
threshold: on the same history and draw sequence, whenever the first draw is
at least 1/2 (neither misses) the outcomes coincide (same success-chance
curve), and the miss branch triggers exactly when the first draw is below 1/2
for Busy variants versus below 1/10 for the base variants. -/
theorem c6_busy_vs_base (u : User) (d1 d2 : ℚ) :
    ((1:ℚ)/2 ≤ d1 →
        BusyQuickLearner.get_simulation_outcome u d1 d2
            = QuickLearner.get_simulation_outcome u d1 d2
      ∧ BusySlowLearner.get_simulation_outcome u d1 d2
            = SlowLearner.get_simulation_outcome u d1 d2)
  ∧ (QuickLearner.get_simulation_outcome u d1 d2 = "MISS" ↔ d1 < 1/10)
  ∧ (SlowLearner.get_simulation_outcome u d1 d2 = "MISS" ↔ d1 < 1/10)
  ∧ (BusyQuickLearner.get_simulation_outcome u d1 d2 = "MISS" ↔ d1 < 1/2)
  ∧ (BusySlowLearner.get_simulation_outcome u d1 d2 = "MISS" ↔ d1 < 1/2) := by
  rw [quick_outcome_eq_spec, slow_outcome_eq_spec, busy_quick_outcome_eq_spec,
    busy_slow_outcome_eq_spec]
  refine ⟨fun h => ?_, spec_draw_eq_miss_iff _ _ _ _ _, spec_draw_eq_miss_iff _ _ _ _ _,
    spec_draw_eq_miss_iff _ _ _ _ _, spec_draw_eq_miss_iff _ _ _ _ _⟩
  have h1 : ¬ d1 < 1/2 := not_lt.mpr h
  have h2 : ¬ d1 < 1/10 := not_lt.mpr (le_trans (by norm_num) h)
  unfold specTwoStageDraw
  simp only [if_neg h1, if_neg h2, and_self]

/-- C6 witness: with first draw 3/4 (no miss for either variant), Busy and
non-Busy variants agree on an empty history. -/
theorem c6_busy_vs_base_witness :
    BusyQuickLearner.get_simulation_outcome
        { id := "i", type := "t", name := "n", history := [] } (3/4) 0
      = QuickLearner.get_simulation_outcome
        { id := "i", type := "t", name := "n", history := [] } (3/4) 0
  ∧ BusySlowLearner.get_simulation_outcome
        { id := "i", type := "t", name := "n", history := [] } (3/4) 0
      = SlowLearner.get_simulation_outcome
        { id := "i", type := "t", name := "n", history := [] } (3/4) 0 :=
  (c6_busy_vs_base { id := "i", type := "t", name := "n", history := [] } (3/4) 0).1
    (by norm_num)

/-- C10: if every history entry of a user carries that user's `id`, `type`
and `name` (true in particular of a fresh user), then after any run of
`complete_simulation` calls every history entry still carries the resulting
user's `id`, `type` and `name` — results stay bound to the user that produced
them. -/
theorem c10_results_bound (u : User) (steps : List (String × (User → String)))
    (h : ∀ r ∈ u.history, r.user_id = u.id ∧ r.type = u.type ∧ r.name = u.name) :
    ∀ r ∈ (runSimulations u steps).2.history,
      r.user_id = (runSimulations u steps).2.id
      ∧ r.type = (runSimulations u steps).2.type
      ∧ r.name = (runSimulations u steps).2.name := by
  induction steps generalizing u with
  | nil => exact h
  | cons s rest ih =>
    obtain ⟨ts, p⟩ := s
    by_cases hm : p u ∈ SIMULATION_OUTCOMES
    · rw [runSimulations, complete_simulation_of_mem _ _ _ hm]
      apply ih
      intro r hr
      rcases List.mem_append.mp hr with hr | hr
      · exact h r hr
      · rw [List.mem_singleton] at hr
        subst hr
        exact ⟨rfl, rfl, rfl⟩
    · rw [runSimulations, complete_simulation_of_not_mem _ _ _ hm]
      exact h

/-- C10 witness: the single result recorded for a fresh user carries that
user's `id`, `type` and `name`. -/
theorem c10_results_bound_witness :
    ({ timestamp := "2022-06-01 10:00:00", user_id := "u1", type := "QuickLearner",
       name := "Ann", outcome := "SUCCESS" } : SimulationResult).user_id
        = (runSimulations { id := "u1", type := "QuickLearner", name := "Ann", history := [] }
            [("2022-06-01 10:00:00", fun _ => "SUCCESS")]).2.id
  ∧ ({ timestamp := "2022-06-01 10:00:00", user_id := "u1", type := "QuickLearner",
       name := "Ann", outcome := "SUCCESS" } : SimulationResult).type
        = (runSimulations { id := "u1", type := "QuickLearner", name := "Ann", history := [] }
            [("2022-06-01 10:00:00", fun _ => "SUCCESS")]).2.type
  ∧ ({ timestamp := "2022-06-01 10:00:00", user_id := "u1", type := "QuickLearner",
       name := "Ann", outcome := "SUCCESS" } : SimulationResult).name
        = (runSimulations { id := "u1", type := "QuickLearner", name := "Ann", history := [] }
            [("2022-06-01 10:00:00", fun _ => "SUCCESS")]).2.name :=
  c10_results_bound { id := "u1", type := "QuickLearner", name := "Ann", history := [] }
    [("2022-06-01 10:00:00", fun _ => "SUCCESS")] (by simp)
    { timestamp := "2022-06-01 10:00:00", user_id := "u1", type := "QuickLearner",
      name := "Ann", outcome := "SUCCESS" } (by decide)

/-- C2: over exact rationals both success-chance curves start at exactly 1/10,
are strictly monotonically increasing, stay strictly below 1 for every count,
and approach 1 at infinity (beyond the threshold 9/ε resp. 27/ε the curve
exceeds 1 - ε); the curves are exactly the `success_chance` closures of the
learner classes evaluated at the user's non-missed count. -/
theorem c2_success_curves :
    quickChance 0 = 1/10
  ∧ slowChance 0 = 1/10
  ∧ StrictMono quickChance
  ∧ StrictMono slowChance
  ∧ (∀ n, quickChance n < 1)
  ∧ (∀ n, slowChance n < 1)
  ∧ (∀ ε : ℚ, 0 < ε → ∀ n : ℕ, 9 / ε ≤ (n : ℚ) → 1 - ε < quickChance n)
  ∧ (∀ ε : ℚ, 0 < ε → ∀ n : ℕ, 27 / ε ≤ (n : ℚ) → 1 - ε < slowChance n)
  ∧ (∀ u : User,
      QuickLearner.success_chance u = quickChance u.non_missed_simulations_completed)
  ∧ (∀ u : User,
      SlowLearner.success_chance u = slowChance u.non_missed_simulations_completed) := by
  refine ⟨by norm_num [quickChance], by norm_num [slowChance], ?_, ?_, ?_, ?_, ?_, ?_,
    fun u => rfl, fun u => rfl⟩
  · apply strictMono_nat_of_lt_succ
    intro n
    unfold quickChance
    push_cast
    rw [div_lt_div_iff₀ (by positivity) (by positivity)]
    nlinarith [Nat.cast_nonneg (α := ℚ) n]
  · apply strictMono_nat_of_lt_succ
    intro n
    unfold slowChance
    push_cast
    rw [div_lt_div_iff₀ (by positivity) (by positivity)]
    nlinarith [Nat.cast_nonneg (α := ℚ) n]
  · intro n
    unfold quickChance
    rw [div_lt_one (by positivity)]
    linarith [Nat.cast_nonneg (α := ℚ) n]
  · intro n
    unfold slowChance
    rw [div_lt_one (by positivity)]
    linarith [Nat.cast_nonneg (α := ℚ) n]
  · intro ε hε n hn
    have h9 : 9 ≤ (n : ℚ) * ε := by
      have := (div_le_iff₀ hε).mp hn
      linarith
    unfold quickChance
    rw [lt_div_iff₀ (by positivity)]
    nlinarith [Nat.cast_nonneg (α := ℚ) n]
  · intro ε hε n hn
    have h27 : 27 ≤ (n : ℚ) * ε := by
      have := (div_le_iff₀ hε).mp hn
      linarith
    unfold slowChance
    rw [lt_div_iff₀ (by positivity)]
    nlinarith [Nat.cast_nonneg (α := ℚ) n]

/-- C2 witness: with ε = 1/100, the quick curve exceeds 1 - ε from count 1000
and the slow curve from count 2800. -/
theorem c2_success_curves_witness :
    1 - 1/100 < quickChance 1000 ∧ 1 - 1/100 < slowChance 2800 :=
  ⟨c2_success_curves.2.2.2.2.2.2.1 (1/100) (by norm_num) 1000 (by norm_num),
   c2_success_curves.2.2.2.2.2.2.2.1 (1/100) (by norm_num) 2800 (by norm_num)⟩

theorem quickV_reordered_eval :
    QuickLearner.get_simulation_outcomeV ["MISS", "SUCCESS", "FAIL"]
      { id := "i", type := "t", name := "n", history := [] } 0 0 = "SUCCESS" := by
  norm_num [QuickLearner.get_simulation_outcomeV]

theorem quick_declared_eval :
    QuickLearner.get_simulation_outcome
      { id := "i", type := "t", name := "n", history := [] } 0 0 = "MISS" := by
  norm_num [QuickLearner.get_simulation_outcome, QuickLearner.get_simulation_outcomeV,
    SIMULATION_OUTCOMES]

/-- C8 counterexample: outcome selection is NOT invariant under reordering the
vocabulary — with the reordered vocabulary ["MISS", "SUCCESS", "FAIL"] and
first draw 0 the QuickLearner variant returns a different outcome than with
the declared vocabulary, because the variants read the vocabulary by position. -/
theorem c8_counterexample :
    ¬ (∀ vocab : List String, vocab.Perm SIMULATION_OUTCOMES →
        ∀ (u : User) (d1 d2 : ℚ),
          QuickLearner.get_simulation_outcomeV vocab u d1 d2
            = QuickLearner.get_simulation_outcome u d1 d2) := by
  intro h
  have h2 := h ["MISS", "SUCCESS", "FAIL"] (by decide)
    { id := "i", type := "t", name := "n", history := [] } 0 0
  rw [quickV_reordered_eval, quick_declared_eval] at h2
  exact absurd h2 (by decide)

/-- C8 amended: the variants access the Outcome Vocabulary by positional
index, so their outcome is not invariant under reordering the vocabulary
declaration; under the declared order the positional reads do resolve to the
intended named outcomes (MISS on the miss branch, SUCCESS/FAIL on the second
draw), as witnessed by the equality with the name-based two-stage draw. -/
theorem c8_positional_access :
    (∀ (u : User) (d1 d2 : ℚ),
        QuickLearner.get_simulation_outcome u d1 d2
          = specTwoStageDraw (1/10) quickChance u.non_missed_simulations_completed d1 d2
      ∧ SlowLearner.get_simulation_outcome u d1 d2
          = specTwoStageDraw (1/10) slowChance u.non_missed_simulations_completed d1 d2
      ∧ BusyQuickLearner.get_simulation_outcome u d1 d2
          = specTwoStageDraw (1/2) quickChance u.non_missed_simulations_completed d1 d2
      ∧ BusySlowLearner.get_simulation_outcome u d1 d2
          = specTwoStageDraw (1/2) slowChance u.non_missed_simulations_completed d1 d2)
  ∧ ∃ vocab : List String, vocab.Perm SIMULATION_OUTCOMES ∧
      ∃ (u : User) (d1 d2 : ℚ),
        QuickLearner.get_simulation_outcomeV vocab u d1 d2
          ≠ QuickLearner.get_simulation_outcome u d1 d2 := by
  refine ⟨fun u d1 d2 => ⟨quick_outcome_eq_spec u d1 d2, slow_outcome_eq_spec u d1 d2,
    busy_quick_outcome_eq_spec u d1 d2, busy_slow_outcome_eq_spec u d1 d2⟩,
    ["MISS", "SUCCESS", "FAIL"], by decide,
    { id := "i", type := "t", name := "n", history := [] }, 0, 0, ?_⟩
  rw [quickV_reordered_eval, quick_declared_eval]
  decide

/-- Embeds `strftime('%Y-%m', timestamp)` on the stored `YYYY-MM-DD HH:MM:SS`
format: the first seven characters. -/
def monthOf (ts : String) : String := String.mk (ts.data.take 7)

/-- The per-type aggregation of `get_data_with_query__types` in `main.py`:
group the persisted rows by `(strftime('%Y-%m', timestamp) AS date, type)`,
count SUCCESS outcomes as `successes` and FAIL outcomes as `fails`, and order
the groups by `date ASC`. -/
def aggTypes (rows : List SimulationResult) : List (String × String × Nat × Nat) :=
  (((rows.map (fun r => (monthOf r.timestamp, r.type))).dedup).insertionSort
      (fun a b => a.1 ≤ b.1)).map
    (fun k =>
      let grp := rows.filter (fun r => monthOf r.timestamp = k.1 ∧ r.type = k.2)
      (k.1, k.2, grp.countP (fun r => r.outcome == "SUCCESS"),
        grp.countP (fun r => r.outcome == "FAIL")))

/-- The per-individual aggregation of `get_data_with_query__individuals` in
`main.py`: group the persisted rows by `user_id` (reporting the group's `name`
and `type`), count SUCCESS, FAIL and MISS outcomes, and order by `name ASC`. -/
def aggIndividuals (rows : List SimulationResult) :
    List (String × String × String × Nat × Nat × Nat) :=
  (((rows.map (fun r => r.user_id)).dedup).map
      (fun uid =>
        let grp := rows.filter (fun r => r.user_id = uid)
        (uid, ((grp.head?).map (fun r => r.name)).getD "",
          ((grp.head?).map (fun r => r.type)).getD "",
          grp.countP (fun r => r.outcome == "SUCCESS"),
          grp.countP (fun r => r.outcome == "FAIL"),
          grp.countP (fun r => r.outcome == "MISS")))).insertionSort
    (fun a b => a.2.1 ≤ b.2.1)

/-- C9: on the three results of user (u1, "Ann", "QuickLearner") — SUCCESS,
SUCCESS, FAIL on three distinct days of 2022-06 — the per-type aggregation
reports successes=2, fails=1 for type "QuickLearner" in that month, and the
per-individual aggregation reports the single row
(u1, Ann, QuickLearner, 2, 1, 0). -/
theorem c9_aggregations :
    aggTypes
        [{ timestamp := "2022-06-01 10:00:00", user_id := "u1", type := "QuickLearner",
           name := "Ann", outcome := "SUCCESS" },
         { timestamp := "2022-06-10 11:00:00", user_id := "u1", type := "QuickLearner",
           name := "Ann", outcome := "SUCCESS" },
         { timestamp := "2022-06-20 12:00:00", user_id := "u1", type := "QuickLearner",
           name := "Ann", outcome := "FAIL" }]
      = [("2022-06", "QuickLearner", 2, 1)]
  ∧ aggIndividuals
        [{ timestamp := "2022-06-01 10:00:00", user_id := "u1", type := "QuickLearner",
           name := "Ann", outcome := "SUCCESS" },
         { timestamp := "2022-06-10 11:00:00", user_id := "u1", type := "QuickLearner",
           name := "Ann", outcome := "SUCCESS" },
         { timestamp := "2022-06-20 12:00:00", user_id := "u1", type := "QuickLearner",
           name := "Ann", outcome := "FAIL" }]
      = [("u1", "Ann", "QuickLearner", 2, 1, 0)] := by
  decide
